import Mathlib

/-!
A shallow embedding of `src/main.py` of the ad-monitor repository: a SERP
monitoring pipeline that reads keywords and competitor names from a Config
worksheet, fetches provider responses per keyword, normalizes listings and
related searches, classifies each listing link against the competitor list,
and appends rows to two worksheets (`Data` and `Keyword_Ideas`).

Worksheets are modelled as lists of rows; Python dictionary lookups with
`or`-fallbacks are modelled by explicit option-valued fields together with
Python-truthiness helpers (`None`, the empty string, `0` and the empty list
are all falsy).
-/

namespace AdMonitor

/-- One spreadsheet cell: the pipeline writes strings and integer positions. -/
inductive Value where
  | s (v : String)
  | n (v : Nat)
deriving DecidableEq

/-- A spreadsheet row. -/
abbrev Row := List Value

/-- A worksheet: its list of rows; the first row is the header slot. -/
abbrev Table := List Row

/-- Python `s.lower()` as applied to links and competitor names. -/
def pyLower (s : String) : String := ⟨s.data.map Char.toLower⟩

/-- Python `needle in hay` substring containment on strings. -/
def pyIn (needle hay : String) : Bool := decide (needle.data <:+: hay.data)

/-- Python `s.strip()`: drop whitespace from both ends. -/
def pyStrip (s : String) : String :=
  ⟨((s.data.dropWhile Char.isWhitespace).reverse.dropWhile Char.isWhitespace).reverse⟩

/-- Python `d.get(k) or default` for a string-valued field: a missing key and a
present-but-empty (falsy) string both fall through to the default. -/
def pyOrStr : Option String → String → String
  | some v, d => if v.isEmpty then d else v
  | none, d => d

/-- Python `d.get(k) or default` for a numeric field: a missing key and a
present `0` (falsy) both fall through to the default. -/
def pyOrNat : Option Nat → Nat → Nat
  | some v, d => if v = 0 then d else v
  | none, d => d

/-- Python `d.get(k) or e` where both operands are optional strings
(`item.get("query") or item.get("text")`). -/
def pyOrOpt : Option String → Option String → Option String
  | some v, d => if v.isEmpty then d else some v
  | none, d => d

/-- Python `d.get(k) or default` for a list-valued field: `None` and the empty
list are falsy. -/
def pyOrList {α : Type} : Option (List α) → List α → List α
  | some v, d => if v.isEmpty then d else v
  | none, d => d

/-- One raw listing item of a provider response; an absent JSON key is `none`. -/
structure RawItem where
  position : Option Nat := none
  rank : Option Nat := none
  title : Option String := none
  snippet : Option String := none
  description : Option String := none
  link : Option String := none
  url : Option String := none
deriving DecidableEq

/-- One raw related-search item; providers name the field `query` or `text`. -/
structure RelItem where
  query : Option String := none
  text : Option String := none
deriving DecidableEq

/-- A raw provider response, restricted to the keys the pipeline reads. -/
structure RawResponse where
  organic_results : Option (List RawItem) := none
  organic : Option (List RawItem) := none
  related_searches : Option (List RelItem) := none
  relatedSearches : Option (List RelItem) := none
  ads : Option (List RawItem) := none
  ad_results : Option (List RawItem) := none
deriving DecidableEq

/-- `get_env_var` (src/main.py lines 11-17): `none` models the `sys.exit(1)`
path, taken when the variable is unset or empty (Python `if not value`). -/
def get_env_var (env : String → Option String) (name : String) : Option String :=
  match env name with
  | none => none
  | some v => if v.isEmpty then none else some v

/-- Keyword column of `read_config` (src/main.py lines 56, 59): skip the header
cell, strip every cell, keep the non-blank ones. -/
def read_config_keywords (keywords_col : List String) : List String :=
  (keywords_col.drop 1).filterMap fun k =>
    if (pyStrip k).isEmpty then none else some (pyStrip k)

/-- Competitor column of `read_config` (src/main.py lines 57, 60): skip the
header cell, strip, keep non-blank cells, lower-case the kept values. -/
def read_config_competitors (competitors_col : List String) : List String :=
  (competitors_col.drop 1).filterMap fun c =>
    if (pyStrip c).isEmpty then none else some (pyLower (pyStrip c))

/-- `classify_link` (src/main.py lines 70-82): an empty link is `Other`;
otherwise the link is lower-cased and any competitor occurring as a substring
makes it `Competitor`. -/
def classify_link (link : String) (competitors : List String) : String :=
  if link.isEmpty then "Other"
  else if competitors.any (fun comp => pyIn comp (pyLower link)) then "Competitor"
  else "Other"

/-- `ensure_headers` (src/main.py lines 112-116): if the first row is empty,
insert the header row at position 1. -/
def ensure_headers (ws : Table) (headers : Row) : Table :=
  if (ws.headD []).isEmpty then headers :: ws else ws

/-- `ws.append_rows(rows)`: gspread appends after the existing rows. -/
def append_rows (ws : Table) (rows : List Row) : Table := ws ++ rows

/-- The `except AttributeError` fallback (src/main.py lines 161-163 and
195-197): append the rows one at a time with `append_row`. -/
def append_rows_one_by_one (ws : Table) (rows : List Row) : Table :=
  rows.foldl (fun acc row => acc ++ [row]) ws

/-- Header of the `Data` worksheet (src/main.py line 132). -/
def dataHeaders : Row :=
  [.s "Date", .s "Keyword", .s "Position", .s "Status", .s "Title",
   .s "Description", .s "Link"]

/-- Header of the `Keyword_Ideas` worksheet (src/main.py line 180). -/
def ideasHeaders : Row := [.s "SeedKeyword", .s "RelatedKeyword", .s "Date"]

/-- Loop body of `append_results_to_data_sheet` (src/main.py lines 136-154):
the row built for one organic item at 1-based enumeration index `idx`. -/
def buildDataRow (keyword : String) (competitors : List String)
    (today_str : String) (idx : Nat) (item : RawItem) : Row :=
  let position := pyOrNat item.position (pyOrNat item.rank idx)
  let title := pyOrStr item.title ""
  let description := pyOrStr item.snippet (pyOrStr item.description "")
  let link := pyOrStr item.link (pyOrStr item.url "")
  let status := classify_link link competitors
  [.s today_str, .s keyword, .n position, .s status, .s title, .s description,
   .s link]

/-- The `for idx, item in enumerate(organic_results, start=1)` loop, with the
running enumeration index made explicit. -/
def dataRowsAux (keyword : String) (competitors : List String)
    (today_str : String) (idx : Nat) : List RawItem → List Row
  | [] => []
  | item :: rest =>
      buildDataRow keyword competitors today_str idx item ::
        dataRowsAux keyword competitors today_str (idx + 1) rest

/-- All rows built by `append_results_to_data_sheet`, enumeration starting at 1. -/
def dataRows (keyword : String) (competitors : List String) (today_str : String)
    (organic_results : List RawItem) : List Row :=
  dataRowsAux keyword competitors today_str 1 organic_results

/-- `append_results_to_data_sheet` (src/main.py lines 119-163). `batch` is true
when the gspread client has `append_rows` (the `try` branch succeeds) and false
on the `AttributeError` fallback. -/
def append_results_to_data_sheet (batch : Bool) (data_ws : Table)
    (keyword : String) (competitors : List String)
    (organic_results : List RawItem) (today_str : String) : Table :=
  let ws := ensure_headers data_ws dataHeaders
  let rows := dataRows keyword competitors today_str organic_results
  if rows.isEmpty then ws
  else if batch then append_rows ws rows else append_rows_one_by_one ws rows

/-- Loop body of `append_related_searches_to_sheet` (src/main.py lines 183-188):
an item with no truthy `query` and no truthy `text` is skipped (`continue`),
any other item yields the row `[seed, query, date]`. -/
def relatedRow (seed_keyword : String) (today_str : String) (item : RelItem) :
    Option Row :=
  match pyOrOpt item.query item.text with
  | none => none
  | some q =>
      if q.isEmpty then none
      else some [.s seed_keyword, .s q, .s today_str]

/-- All rows built by `append_related_searches_to_sheet`. -/
def relatedRows (seed_keyword : String) (today_str : String)
    (related_searches : List RelItem) : List Row :=
  related_searches.filterMap (relatedRow seed_keyword today_str)

/-- `append_related_searches_to_sheet` (src/main.py lines 166-197). -/
def append_related_searches_to_sheet (batch : Bool) (kw_ideas_ws : Table)
    (seed_keyword : String) (related_searches : List RelItem)
    (today_str : String) : Table :=
  let ws := ensure_headers kw_ideas_ws ideasHeaders
  let rows := relatedRows seed_keyword today_str related_searches
  if rows.isEmpty then ws
  else if batch then append_rows ws rows else append_rows_one_by_one ws rows

/-- Extraction of the organic listings in `main` (src/main.py lines 253-257):
`result.get("organic_results") or result.get("organic") or []`. -/
def organicOf (result : RawResponse) : List RawItem :=
  pyOrList result.organic_results (pyOrList result.organic [])

/-- Extraction of the related searches in `main` (src/main.py lines 258-262):
`result.get("related_searches") or result.get("relatedSearches") or []`. -/
def relatedOf (result : RawResponse) : List RelItem :=
  pyOrList result.related_searches (pyOrList result.relatedSearches [])

/-- State of the two output worksheets during a run. -/
structure SheetState where
  data : Table
  ideas : Table
deriving DecidableEq

/-- One iteration of the keyword loop in `main` (src/main.py lines 235-291):
a failed fetch (either `except` arm) is logged and skipped, leaving the sheets
unchanged; a successful fetch appends organic rows and related-search rows when
the respective extracted lists are non-empty. -/
def processKeyword (batch : Bool) (fetch : String → Except String RawResponse)
    (competitors : List String) (today_str : String) (st : SheetState)
    (keyword : String) : SheetState :=
  match fetch keyword with
  | .error _ => st
  | .ok result =>
      let organic_results := organicOf result
      let related_searches := relatedOf result
      let st1 :=
        if organic_results.isEmpty then st
        else
          { st with
            data := append_results_to_data_sheet batch st.data keyword
              competitors organic_results today_str }
      if related_searches.isEmpty then st1
      else
        { st1 with
          ideas := append_related_searches_to_sheet batch st1.ideas keyword
            related_searches today_str }

/-- The keyword loop of `main`: keywords processed in order, one at a time. -/
def runLoop (batch : Bool) (fetch : String → Except String RawResponse)
    (competitors : List String) (today_str : String) (st : SheetState)
    (keywords : List String) : SheetState :=
  keywords.foldl (processKeyword batch fetch competitors today_str) st

/-- The spreadsheet `main` opens: the Config worksheet (its two columns) when it
exists, and the `Data` / `Keyword_Ideas` worksheets, which
`get_or_create_worksheet` always provides. -/
structure Spreadsheet where
  config : Option (List String × List String)
  data : Table
  ideas : Table

/-- `main` (src/main.py lines 200-293) as a function of its environment:
`env` is the process environment, `jsonValid` models whether `json.loads`
accepts the credential payload, `fetch` models `fetch_serpapi_results`.
Returns the process exit code and the final worksheet states. -/
def main (batch : Bool) (env : String → Option String)
    (jsonValid : String → Bool) (sh : Spreadsheet)
    (fetch : String → Except String RawResponse) (today_str : String) :
    Nat × SheetState :=
  match get_env_var env "SERPAPI_API_KEY" with
  | none => (1, ⟨sh.data, sh.ideas⟩)
  | some _ =>
    match get_env_var env "SHEET_ID" with
    | none => (1, ⟨sh.data, sh.ideas⟩)
    | some _ =>
      match get_env_var env "GCP_CREDENTIALS_JSON" with
      | none => (1, ⟨sh.data, sh.ideas⟩)
      | some cred =>
        if jsonValid cred then
          match sh.config with
          | none => (1, ⟨sh.data, sh.ideas⟩)
          | some cfg =>
            let keywords := read_config_keywords cfg.1
            let competitors := read_config_competitors cfg.2
            if keywords.isEmpty then (0, ⟨sh.data, sh.ideas⟩)
            else
              (0, runLoop batch fetch competitors today_str
                ⟨sh.data, sh.ideas⟩ keywords)
        else (1, ⟨sh.data, sh.ideas⟩)

/-- Spec-side resolution policy (spec section 4.2): first present and non-empty
string in the ordered fallback list, else the empty string. -/
def specFirstNonEmptyStr : List (Option String) → String
  | [] => ""
  | none :: rest => specFirstNonEmptyStr rest
  | some v :: rest => if v.isEmpty then specFirstNonEmptyStr rest else v

/-- Spec-side resolution for an optional result: first present and non-empty
string in the fallback list, else `none`. -/
def specFirstTruthyStr : List (Option String) → Option String
  | [] => none
  | none :: rest => specFirstTruthyStr rest
  | some v :: rest => if v.isEmpty then specFirstTruthyStr rest else some v

/-- Spec-side resolution for the position field: first present non-zero value
of the fallback list, else the default (the enumeration index). -/
def specFirstNonZeroNat : List (Option Nat) → Nat → Nat
  | [], d => d
  | none :: rest, d => specFirstNonZeroNat rest d
  | some v :: rest, d => if v = 0 then specFirstNonZeroNat rest d else v

/-- Spec-side resolution for a list-valued key: first present non-empty list in
the ordered fallback list, else the empty list. -/
def specFirstNonEmptyList {α : Type} : List (Option (List α)) → List α
  | [] => []
  | none :: rest => specFirstNonEmptyList rest
  | some v :: rest => if v.isEmpty then specFirstNonEmptyList rest else v

/-- Modelled from the spec: src/main.py implements only the organic provider
shape, the ads/paid shape of spec section 4.2 is not in the source; per the
spec, ads listings live under key `ads` with fallback `ad_results`, with the
same falsy-fallback reading as the organic extraction. -/
def adsOf (result : RawResponse) : List RawItem :=
  pyOrList result.ads (pyOrList result.ad_results [])

/-- Modelled from the spec: canonical ads listing record of spec section 4.2
(`title`, `description` or `snippet`, `link` or `url`, position assigned as the
1-based enumeration index). -/
structure AdListing where
  position : Nat
  title : String
  description : String
  link : String
deriving DecidableEq

/-- Modelled from the spec: normalization of one ads item at enumeration index
`idx`, fields resolved by the spec's ordered fallbacks. -/
def normalizeAdItem (idx : Nat) (item : RawItem) : AdListing :=
  { position := idx
    title := pyOrStr item.title ""
    description := pyOrStr item.description (pyOrStr item.snippet "")
    link := pyOrStr item.link (pyOrStr item.url "") }

/-- Modelled from the spec: ads normalization loop with explicit 1-based index. -/
def normalizeAdsAux (idx : Nat) : List RawItem → List AdListing
  | [] => []
  | item :: rest => normalizeAdItem idx item :: normalizeAdsAux (idx + 1) rest

/-- Modelled from the spec: full ads-shape normalization of a raw response. -/
def normalize_ads (result : RawResponse) : List AdListing :=
  normalizeAdsAux 1 (adsOf result)

/-- The write operations the pipeline performs on a single worksheet. -/
inductive PipelineOp where
  | ensureH (headers : Row)
  | appendData (batch : Bool) (keyword : String) (competitors : List String)
      (organic_results : List RawItem) (today_str : String)
  | appendRel (batch : Bool) (seed_keyword : String)
      (related_searches : List RelItem) (today_str : String)

/-- Apply one pipeline write operation to a worksheet. -/
def applyOp (ws : Table) : PipelineOp → Table
  | .ensureH headers => ensure_headers ws headers
  | .appendData batch keyword competitors organic_results today_str =>
      append_results_to_data_sheet batch ws keyword competitors organic_results
        today_str
  | .appendRel batch seed_keyword related_searches today_str =>
      append_related_searches_to_sheet batch ws seed_keyword related_searches
        today_str

/-- Environment for the end-to-end scenario: every required variable is set
and non-empty. -/
def envAB : String → Option String := fun _ => some "x"

/-- The single organic listing the end-to-end scenario returns for keyword B. -/
def itemB : RawItem :=
  { position := some 1
    title := some "Bsite"
    snippet := some "about b"
    link := some "http://b.co" }

/-- The provider response of the end-to-end scenario for keyword B. -/
def respB : RawResponse := { organic_results := some [itemB] }

/-- Fetch for the end-to-end scenario: the fetch for keyword "A" raises, the
fetch for keyword "B" succeeds with exactly one organic listing and no related
searches. -/
def fetchAB : String → Except String RawResponse := fun keyword =>
  if keyword = "B" then .ok respB else .error "HTTPError"

/-- Spreadsheet for the end-to-end scenario: the Config worksheet lists the
keywords A and B and no competitors; the output worksheets start empty. -/
def spreadsheetAB : Spreadsheet :=
  { config := some (["Keywords", "A", "B"], ["Competitors"])
    data := []
    ideas := [] }

/-- The single data row the end-to-end scenario writes, for keyword B. -/
def rowB : Row :=
  [.s "2024-01-01", .s "B", .n 1, .s "Other", .s "Bsite", .s "about b",
   .s "http://b.co"]

/-! Helper lemmas shared by the claim theorems. -/

theorem pyIn_eq_true_iff (needle hay : String) :
    pyIn needle hay = true ↔ needle.data <:+: hay.data := by
  simp [pyIn]

theorem data_eq_nil_iff (s : String) : s.data = [] ↔ s = "" := by
  constructor
  · intro h
    cases s with
    | mk d => cases h; rfl
  · intro h
    rw [h]

theorem pyLower_eq_empty_iff (s : String) : pyLower s = "" ↔ s = "" := by
  constructor
  · intro h
    have hd := congrArg String.data h
    simp only [pyLower] at hd
    have : s.data = [] := by simpa using hd
    exact (data_eq_nil_iff s).mp this
  · intro h
    rw [h]
    rfl

theorem isEmpty_eq_false_iff (s : String) : s.isEmpty = false ↔ s ≠ "" := by
  rw [← Bool.not_eq_true, not_iff_not]
  exact String.isEmpty_iff s

/-- C1 is stated with the competitor lower-cased; `classify_link` lower-cases
only the link, so a competitor containing an upper-case letter never matches:
at link "abc" and competitor list ["ABC"], the lower-cased competitor is a
substring of the lower-cased link, yet the result is "Other". -/
theorem classify_link_counterexample :
    classify_link "abc" ["ABC"] = "Other" ∧
      (pyLower "ABC").data <:+: (pyLower "abc").data := by
  constructor
  · decide
  · decide

/-- C1 (amended): for every link L and competitor list C, `classify_link L C`
returns "Competitor" iff L is non-empty and some member of C, used as given
(not lower-cased), is a substring of the lower-cased L; and the empty link
always yields "Other". -/
theorem classify_link_characterization (L : String) (C : List String) :
    (classify_link L C = "Competitor" ↔
      (L.isEmpty = false ∧ ∃ c ∈ C, c.data <:+: (pyLower L).data)) ∧
    classify_link "" C = "Other" := by
  constructor
  · unfold classify_link
    rcases hL : L.isEmpty with _ | _
    · simp only [hL, Bool.false_eq_true, if_false]
      constructor
      · intro h
        split at h
        · rename_i hany
          refine ⟨by simp [hL], ?_⟩
          obtain ⟨c, hc, hin⟩ := List.any_eq_true.mp hany
          exact ⟨c, hc, (pyIn_eq_true_iff c (pyLower L)).mp hin⟩
        · exact absurd h (by decide)
      · rintro ⟨-, c, hc, hin⟩
        have hany : C.any (fun comp => pyIn comp (pyLower L)) = true :=
          List.any_eq_true.mpr ⟨c, hc, (pyIn_eq_true_iff c (pyLower L)).mpr hin⟩
        simp [hany]
    · simp only [hL, if_true]
      constructor
      · intro h
        exact absurd h (by decide)
      · rintro ⟨h, -⟩
        exact Bool.noConfusion h
  · rfl

/-- C10: the empty string is a substring of every string, so a blank entry in
the competitor list makes every non-empty link classify as "Competitor"; this
is excluded upstream because `read_config` filters blank competitor cells, so
no competitor it produces is ever empty. -/
theorem empty_competitor_matches_everything :
    (∀ (L : String) (C : List String), L.isEmpty = false → "" ∈ C →
      classify_link L C = "Competitor") ∧
    (∀ (competitors_col : List String) (c : String),
      c ∈ read_config_competitors competitors_col → c.isEmpty = false) := by
  constructor
  · intro L C hL hmem
    have hin : pyIn "" (pyLower L) = true :=
      (pyIn_eq_true_iff "" (pyLower L)).mpr ⟨[], (pyLower L).data, rfl⟩
    have hany : C.any (fun comp => pyIn comp (pyLower L)) = true :=
      List.any_eq_true.mpr ⟨"", hmem, hin⟩
    simp [classify_link, hL, hany]
  · intro competitors_col c hc
    simp only [read_config_competitors, List.mem_filterMap] at hc
    obtain ⟨a, -, ha⟩ := hc
    rcases hstrip : (pyStrip a).isEmpty with _ | _
    · rw [hstrip] at ha
      simp only [Bool.false_eq_true, if_false, Option.some.injEq] at ha
      rw [← ha, isEmpty_eq_false_iff]
      intro hlow
      have : pyStrip a = "" := (pyLower_eq_empty_iff (pyStrip a)).mp hlow
      rw [this] at hstrip
      cases hstrip
    · rw [hstrip] at ha
      simp at ha

/-- Closed instance of the C10 theorem: a blank competitor turns the non-empty
link "x" into "Competitor", and a sample competitor column with blanks yields
only non-empty competitor strings. -/
theorem empty_competitor_matches_everything_witness :
    classify_link "x" [""] = "Competitor" ∧ ("foo" : String).isEmpty = false := by
  constructor
  · exact empty_competitor_matches_everything.1 "x" [""] (by decide)
      (List.mem_singleton.mpr rfl)
  · exact empty_competitor_matches_everything.2 ["Competitors", "  ", "Foo"]
      "foo" (by decide)

theorem append_rows_one_by_one_eq (ws : Table) (rows : List Row) :
    append_rows_one_by_one ws rows = ws ++ rows := by
  induction rows generalizing ws with
  | nil => simp [append_rows_one_by_one]
  | cons row rest ih =>
    show append_rows_one_by_one (ws ++ [row]) rest = ws ++ row :: rest
    rw [ih (ws ++ [row])]
    simp

/-- C7: both append paths are order-preserving and additive: appending
[r1, r2] and then [r3] (on either path) appends exactly r1, r2, r3 after the
prior rows; the one-row-at-a-time fallback equals the batch append, prior rows
are unaltered, and no row is dropped. -/
theorem append_is_additive (ws : Table) (r1 r2 r3 : Row) (rows : List Row) :
    append_rows (append_rows ws [r1, r2]) [r3] = ws ++ [r1, r2, r3] ∧
    append_rows_one_by_one (append_rows_one_by_one ws [r1, r2]) [r3]
      = ws ++ [r1, r2, r3] ∧
    append_rows_one_by_one ws rows = append_rows ws rows ∧
    (append_rows ws rows).take ws.length = ws ∧
    (append_rows ws rows).length = ws.length + rows.length := by
  refine ⟨by simp [append_rows], ?_, append_rows_one_by_one_eq ws rows, ?_, ?_⟩
  · rw [append_rows_one_by_one_eq, append_rows_one_by_one_eq]
    simp
  · exact List.take_left ws rows
  · simp [append_rows]

/-- C5 fails for the empty header: `ensure_headers` detects an existing header
solely by "first row empty", and inserting the empty header leaves the first
row empty, so a second call inserts again: on the empty table the states after
one and after two calls differ. -/
theorem ensure_headers_counterexample :
    ensure_headers (ensure_headers ([] : Table) []) [] ≠
      ensure_headers ([] : Table) [] := by
  decide

/-- C5 (amended): for every non-empty header, calling `ensure_headers` twice on
an initially-empty table yields exactly one header row and the same state as
calling it once; the header is written only when the first row is currently
empty, and nothing happens otherwise. -/
theorem ensure_headers_idempotent (headers : Row) (hne : headers ≠ []) :
    ensure_headers ([] : Table) headers = [headers] ∧
    ensure_headers (ensure_headers ([] : Table) headers) headers
      = ensure_headers ([] : Table) headers ∧
    (∀ ws : Table, (ws.headD []).isEmpty = false → ensure_headers ws headers = ws) ∧
    (∀ ws : Table, (ws.headD []).isEmpty = true →
      ensure_headers ws headers = headers :: ws) := by
  have hemp : headers.isEmpty = false := by
    cases headers with
    | nil => exact absurd rfl hne
    | cons v rest => rfl
  refine ⟨rfl, ?_, ?_, ?_⟩
  · show ensure_headers [headers] headers = [headers]
    simp [ensure_headers, hemp]
  · intro ws h
    simp only [ensure_headers, h, Bool.false_eq_true, if_false]
  · intro ws h
    simp only [ensure_headers, h, if_true]

/-- Closed instance of the C5 theorem at the Data header of the pipeline. -/
theorem ensure_headers_idempotent_witness :
    ensure_headers (ensure_headers ([] : Table) dataHeaders) dataHeaders
      = ensure_headers ([] : Table) dataHeaders := by
  exact (ensure_headers_idempotent dataHeaders (by decide)).2.1

theorem applyOp_preserves_head (ws : Table) (r : Row) (op : PipelineOp)
    (h1 : ws.head? = some r) (h2 : r ≠ []) : (applyOp ws op).head? = some r := by
  obtain ⟨tail, rfl⟩ : ∃ tail, ws = r :: tail := by
    cases ws with
    | nil => cases h1
    | cons a tail =>
      obtain rfl : a = r := by simpa using h1
      exact ⟨tail, rfl⟩
  have hemp : r.isEmpty = false := by
    cases r with
    | nil => exact absurd rfl h2
    | cons v rest => rfl
  have hens : ∀ headers, ensure_headers (r :: tail) headers = r :: tail := by
    intro headers
    simp [ensure_headers, hemp]
  cases op with
  | ensureH headers => simp [applyOp, hens]
  | appendData batch keyword competitors organic_results today_str =>
    simp only [applyOp, append_results_to_data_sheet, hens]
    split
    · rfl
    · split <;>
        simp [append_rows, append_rows_one_by_one_eq, List.cons_append]
  | appendRel batch seed_keyword related_searches today_str =>
    simp only [applyOp, append_related_searches_to_sheet, hens]
    split
    · rfl
    · split <;>
        simp [append_rows, append_rows_one_by_one_eq, List.cons_append]

/-- C6: once a worksheet's first (header) row is non-empty, no sequence of
pipeline write operations (`ensure_headers` or either append) ever changes it. -/
theorem header_row_invariant (ops : List PipelineOp) (ws : Table) (r : Row)
    (h1 : ws.head? = some r) (h2 : r ≠ []) :
    (ops.foldl applyOp ws).head? = some r := by
  induction ops generalizing ws with
  | nil => simpa using h1
  | cons op rest ih => exact ih (applyOp ws op) (applyOp_preserves_head ws r op h1 h2)

/-- Closed instance of the C6 theorem: a headered table keeps its header row
across an ensure, an organic append and a related append. -/
theorem header_row_invariant_witness :
    (([PipelineOp.ensureH ideasHeaders,
       PipelineOp.appendData true "kw" [] [{ title := some "t" }] "2024-01-01",
       PipelineOp.appendRel false "kw" [{ query := some "q" }] "2024-01-01"]).foldl
        applyOp [dataHeaders]).head? = some dataHeaders := by
  exact header_row_invariant _ [dataHeaders] dataHeaders rfl (by decide)

theorem pyOrStr_spec2 (a b : Option String) :
    pyOrStr a (pyOrStr b "") = specFirstNonEmptyStr [a, b] := by
  cases a <;> cases b <;> rfl

theorem pyOrStr_spec1 (a : Option String) :
    pyOrStr a "" = specFirstNonEmptyStr [a] := by
  cases a <;> rfl

theorem pyOrNat_spec2 (a b : Option Nat) (d : Nat) :
    pyOrNat a (pyOrNat b d) = specFirstNonZeroNat [a, b] d := by
  cases a <;> cases b <;> rfl

theorem pyOrList_spec2 {α : Type} (a b : Option (List α)) :
    pyOrList a (pyOrList b []) = specFirstNonEmptyList [a, b] := by
  cases a <;> cases b <;> rfl

theorem dataRowsAux_getD (keyword : String) (competitors : List String)
    (today_str : String) (items : List RawItem) :
    ∀ (start i : Nat) (d : RawItem), i < items.length →
      (dataRowsAux keyword competitors today_str start items).getD i []
        = buildDataRow keyword competitors today_str (start + i)
            (items.getD i d) := by
  induction items with
  | nil =>
    intro start i d h
    exact absurd h (by simp)
  | cons item rest ih =>
    intro start i d h
    cases i with
    | zero => rfl
    | succ n =>
      have hn : n < rest.length := by simpa using h
      have e : start + (n + 1) = (start + 1) + n := by omega
      show (dataRowsAux keyword competitors today_str (start + 1) rest).getD n []
        = buildDataRow keyword competitors today_str (start + (n + 1))
            (rest.getD n d)
      rw [e, ih (start + 1) n d hn]

/-- C2: each organic row resolves its fields by the spec's ordered fallbacks:
the row for the item at 1-based enumeration index i + 1 carries the first
truthy of position then rank (else i + 1), the title (else empty), the first
truthy of snippet then description (else empty) and the first truthy of link
then url (else empty); all fields are total strings / numbers, never a
missing marker. -/
theorem organic_field_resolution (keyword : String) (competitors : List String)
    (today_str : String) (items : List RawItem) (i : Nat) (d : RawItem)
    (h : i < items.length) :
    (dataRows keyword competitors today_str items).getD i []
      = [Value.s today_str, Value.s keyword,
         Value.n (specFirstNonZeroNat
           [(items.getD i d).position, (items.getD i d).rank] (i + 1)),
         Value.s (classify_link
           (specFirstNonEmptyStr [(items.getD i d).link, (items.getD i d).url])
           competitors),
         Value.s (specFirstNonEmptyStr [(items.getD i d).title]),
         Value.s (specFirstNonEmptyStr
           [(items.getD i d).snippet, (items.getD i d).description]),
         Value.s (specFirstNonEmptyStr
           [(items.getD i d).link, (items.getD i d).url])] := by
  rw [dataRows, dataRowsAux_getD keyword competitors today_str items 1 i d h]
  rw [buildDataRow]
  rw [pyOrStr_spec2, pyOrStr_spec2, pyOrStr_spec1, pyOrNat_spec2]
  rw [Nat.add_comm 1 i]

/-- Closed instance of the C2 theorem on a one-item listing that only carries
the fallback keys rank, description and url. -/
theorem organic_field_resolution_witness :
    (dataRows "kw" [] "2024-01-01"
        [{ rank := some 3, description := some "d", url := some "u" }]).getD 0 []
      = [Value.s "2024-01-01", Value.s "kw",
         Value.n (specFirstNonZeroNat [none, some 3] 1),
         Value.s (classify_link (specFirstNonEmptyStr [none, some "u"]) []),
         Value.s (specFirstNonEmptyStr [none]),
         Value.s (specFirstNonEmptyStr [none, some "d"]),
         Value.s (specFirstNonEmptyStr [none, some "u"])] := by
  exact organic_field_resolution "kw" [] "2024-01-01"
    [{ rank := some 3, description := some "d", url := some "u" }] 0 {}
    (by decide)

theorem normalizeAdsAux_positions (items : List RawItem) :
    ∀ idx : Nat, (normalizeAdsAux idx items).map AdListing.position
      = List.range' idx items.length := by
  induction items with
  | nil => intro idx; rfl
  | cons item rest ih =>
    intro idx
    show idx :: (normalizeAdsAux (idx + 1) rest).map AdListing.position
      = List.range' idx (rest.length + 1)
    rw [ih (idx + 1), List.range'_succ]

theorem normalizeAdsAux_length (items : List RawItem) :
    ∀ idx : Nat, (normalizeAdsAux idx items).length = items.length := by
  induction items with
  | nil => intro idx; rfl
  | cons item rest ih =>
    intro idx
    show (normalizeAdsAux (idx + 1) rest).length + 1 = rest.length + 1
    rw [ih (idx + 1)]

/-- C3: for the ads/paid provider shape, the listings come from key `ads` with
fallback `ad_results` (spec's first-non-empty policy), one canonical listing
per raw item, and the positions are exactly the 1-based enumeration indices
1, 2, ..., n. -/
theorem ads_shape_normalization (result : RawResponse) :
    adsOf result = specFirstNonEmptyList [result.ads, result.ad_results] ∧
    (normalize_ads result).length = (adsOf result).length ∧
    (normalize_ads result).map AdListing.position
      = List.range' 1 (adsOf result).length := by
  refine ⟨pyOrList_spec2 result.ads result.ad_results, ?_, ?_⟩
  · exact normalizeAdsAux_length (adsOf result) 1
  · exact normalizeAdsAux_positions (adsOf result) 1

theorem relatedRow_eq_spec (seed_keyword today_str : String) (item : RelItem) :
    relatedRow seed_keyword today_str item
      = (specFirstTruthyStr [item.query, item.text]).map
          (fun q => [Value.s seed_keyword, Value.s q, Value.s today_str]) := by
  rcases item with ⟨q, t⟩
  cases q with
  | none =>
    cases t with
    | none => rfl
    | some v =>
      rcases hv : v.isEmpty with _ | _ <;>
        simp [relatedRow, pyOrOpt, specFirstTruthyStr, hv]
  | some v =>
    rcases t with _ | w
    · rcases hv : v.isEmpty with _ | _ <;>
        simp [relatedRow, pyOrOpt, specFirstTruthyStr, hv]
    · rcases hv : v.isEmpty with _ | _ <;>
        rcases hw : w.isEmpty with _ | _ <;>
        simp [relatedRow, pyOrOpt, specFirstTruthyStr, hv, hw]

/-- C8: a related-search item lacking a truthy `query` and a truthy `text`
yields no row (and no error), any other item yields exactly the row
[seed keyword, query-or-text, run date]; and the related-search list is taken
from key `related_searches` with fallback `relatedSearches`. -/
theorem related_searches_resolution (seed_keyword today_str : String)
    (item : RelItem) (related_searches : List RelItem) (result : RawResponse) :
    relatedRow seed_keyword today_str item
      = (specFirstTruthyStr [item.query, item.text]).map
          (fun q => [Value.s seed_keyword, Value.s q, Value.s today_str]) ∧
    relatedRows seed_keyword today_str (item :: related_searches)
      = (relatedRow seed_keyword today_str item).toList
          ++ relatedRows seed_keyword today_str related_searches ∧
    relatedOf result
      = specFirstNonEmptyList [result.related_searches, result.relatedSearches] := by
  refine ⟨relatedRow_eq_spec seed_keyword today_str item, ?_,
    pyOrList_spec2 result.related_searches result.relatedSearches⟩
  show (item :: related_searches).filterMap (relatedRow seed_keyword today_str)
    = (relatedRow seed_keyword today_str item).toList
        ++ related_searches.filterMap (relatedRow seed_keyword today_str)
  rw [List.filterMap_cons]
  cases hrow : relatedRow seed_keyword today_str item <;> simp [hrow]

/-- C4: a keyword whose fetch fails is skipped — the sheets are unchanged for
it and the loop continues with the remaining keywords; in the concrete
scenario where the fetch for "A" fails and the fetch for "B" returns one
listing, the run completes with exit code 0 and exactly one listing row (for
B) under the header. -/
theorem failed_keyword_skipped (batch : Bool)
    (fetch : String → Except String RawResponse) (competitors : List String)
    (today_str : String) (st : SheetState) (keyword e : String)
    (rest : List String) (h : fetch keyword = .error e) :
    runLoop batch fetch competitors today_str st (keyword :: rest)
      = runLoop batch fetch competitors today_str st rest ∧
    main true envAB (fun _ => true) spreadsheetAB fetchAB "2024-01-01"
      = (0, ⟨[dataHeaders, rowB], []⟩) := by
  constructor
  · have hstep : processKeyword batch fetch competitors today_str st keyword
        = st := by
      simp [processKeyword, h]
    show runLoop batch fetch competitors today_str
        (processKeyword batch fetch competitors today_str st keyword) rest
      = runLoop batch fetch competitors today_str st rest
    rw [hstep]
  · decide

/-- Closed instance of the C4 theorem: the failing keyword "A" leaves the run
state exactly as if it had not been in the keyword list. -/
theorem failed_keyword_skipped_witness :
    runLoop true fetchAB [] "2024-01-01" ⟨[], []⟩ ["A"]
      = runLoop true fetchAB [] "2024-01-01" ⟨[], []⟩ [] := by
  exact (failed_keyword_skipped true fetchAB [] "2024-01-01" ⟨[], []⟩ "A"
    "HTTPError" [] (by simp [fetchAB])).1

theorem get_env_var_of_none (env : String → Option String) (name : String)
    (h : env name = none) : get_env_var env name = none := by
  simp [get_env_var, h]

theorem get_env_var_of_blank (env : String → Option String) (name : String)
    (h : env name = some "") : get_env_var env name = none := by
  have hemp : ("" : String).isEmpty = true := rfl
  simp [get_env_var, h, hemp]

theorem get_env_var_of_some (env : String → Option String) (name v : String)
    (hv : env name = some v) (hne : v ≠ "") :
    get_env_var env name = some v := by
  simp [get_env_var, hv, (isEmpty_eq_false_iff v).mpr hne]

theorem get_env_var_some_inv (env : String → Option String) (name v : String)
    (h : get_env_var env name = some v) : env name = some v := by
  cases he : env name with
  | none => simp [get_env_var, he] at h
  | some w =>
    simp only [get_env_var, he] at h
    split at h
    · cases h
    · cases h
      rfl

/-- C9: `main` exits 1 when any required environment variable is unset or
empty, when the credential payload is not valid JSON, or when the Config
worksheet is missing; it exits 0 on normal completion, and with an empty
keyword list it exits 0 leaving the worksheets untouched. -/
theorem exit_codes (batch : Bool) (env : String → Option String)
    (jsonValid : String → Bool) (sh : Spreadsheet)
    (fetch : String → Except String RawResponse) (today_str : String) :
    ((env "SERPAPI_API_KEY" = none ∨ env "SERPAPI_API_KEY" = some "" ∨
      env "SHEET_ID" = none ∨ env "SHEET_ID" = some "" ∨
      env "GCP_CREDENTIALS_JSON" = none ∨ env "GCP_CREDENTIALS_JSON" = some "" ∨
      (∃ s, env "GCP_CREDENTIALS_JSON" = some s ∧ jsonValid s = false) ∨
      sh.config = none) →
      (main batch env jsonValid sh fetch today_str).1 = 1) ∧
    ((∀ name, name = "SERPAPI_API_KEY" ∨ name = "SHEET_ID" ∨
        name = "GCP_CREDENTIALS_JSON" → ∃ v, env name = some v ∧ v ≠ "") →
      (∀ s, env "GCP_CREDENTIALS_JSON" = some s → jsonValid s = true) →
      sh.config ≠ none →
      (main batch env jsonValid sh fetch today_str).1 = 0) ∧
    (∀ colA colB,
      (∀ name, name = "SERPAPI_API_KEY" ∨ name = "SHEET_ID" ∨
        name = "GCP_CREDENTIALS_JSON" → ∃ v, env name = some v ∧ v ≠ "") →
      (∀ s, env "GCP_CREDENTIALS_JSON" = some s → jsonValid s = true) →
      sh.config = some (colA, colB) →
      read_config_keywords colA = [] →
      main batch env jsonValid sh fetch today_str = (0, ⟨sh.data, sh.ideas⟩)) := by
  refine ⟨?_, ?_, ?_⟩
  · intro hbad
    unfold main
    cases hk : get_env_var env "SERPAPI_API_KEY" with
    | none => rfl
    | some k =>
      cases hs : get_env_var env "SHEET_ID" with
      | none => rfl
      | some sid =>
        cases hc : get_env_var env "GCP_CREDENTIALS_JSON" with
        | none => rfl
        | some cred =>
          rcases hjv : jsonValid cred with _ | _
          · simp [hjv]
          · cases hcfg : sh.config with
            | none => simp [hjv, hcfg]
            | some cfg =>
              exfalso
              rcases hbad with h | h | h | h | h | h | h | h
              · rw [get_env_var_of_none env _ h] at hk; cases hk
              · rw [get_env_var_of_blank env _ h] at hk; cases hk
              · rw [get_env_var_of_none env _ h] at hs; cases hs
              · rw [get_env_var_of_blank env _ h] at hs; cases hs
              · rw [get_env_var_of_none env _ h] at hc; cases hc
              · rw [get_env_var_of_blank env _ h] at hc; cases hc
              · obtain ⟨s, hsome, hfalse⟩ := h
                have := get_env_var_some_inv env _ cred hc
                rw [this] at hsome
                cases hsome
                rw [hjv] at hfalse
                cases hfalse
              · rw [h] at hcfg; cases hcfg
  · intro hgood hjv hcfg
    obtain ⟨k, hk, hkne⟩ := hgood "SERPAPI_API_KEY" (Or.inl rfl)
    obtain ⟨sid, hs, hsne⟩ := hgood "SHEET_ID" (Or.inr (Or.inl rfl))
    obtain ⟨cred, hc, hcne⟩ := hgood "GCP_CREDENTIALS_JSON" (Or.inr (Or.inr rfl))
    cases hcfg' : sh.config with
    | none => exact absurd hcfg' hcfg
    | some cfg =>
      simp only [main, get_env_var_of_some env "SERPAPI_API_KEY" k hk hkne,
        get_env_var_of_some env "SHEET_ID" sid hs hsne,
        get_env_var_of_some env "GCP_CREDENTIALS_JSON" cred hc hcne,
        hjv cred hc, hcfg', if_true]
      split <;> rfl
  · intro colA colB hgood hjv hcfg hempty
    obtain ⟨k, hk, hkne⟩ := hgood "SERPAPI_API_KEY" (Or.inl rfl)
    obtain ⟨sid, hs, hsne⟩ := hgood "SHEET_ID" (Or.inr (Or.inl rfl))
    obtain ⟨cred, hc, hcne⟩ := hgood "GCP_CREDENTIALS_JSON" (Or.inr (Or.inr rfl))
    simp only [main, get_env_var_of_some env "SERPAPI_API_KEY" k hk hkne,
      get_env_var_of_some env "SHEET_ID" sid hs hsne,
      get_env_var_of_some env "GCP_CREDENTIALS_JSON" cred hc hcne,
      hjv cred hc, hcfg, if_true]
    simp [hempty]

/-- Closed instance of the C9 theorem: with no environment variable set, the
process exits with code 1. -/
theorem exit_codes_witness :
    (main true (fun _ => none) (fun _ => true)
        { config := none, data := [], ideas := [] }
        (fun _ => .error "down") "2024-01-01").1 = 1 := by
  exact (exit_codes true (fun _ => none) (fun _ => true)
    { config := none, data := [], ideas := [] }
    (fun _ => .error "down") "2024-01-01").1 (Or.inl rfl)

end AdMonitor
